import Mathlib

/-!
Shallow embedding of the Item REST service (Go sources: `models/item.go`,
`database/database.go`, `handlers/openapi_handlers.go`,
`handlers/item_handlers.go` and the mux-based handler file).

The storage engine (SQLite) is modelled as an in-memory table: a list of
rows together with the next auto-increment key.  Each repository function
of `database/database.go` is translated into a pure function on this
state; `sql.ErrNoRows` and driver-level failures are the constructors of
`SqlError`.  HTTP handlers become functions from the decoded request body
(and the table state) to a `Response` value paired with the new state.
-/

namespace RestServer

/-- `models.Item` from `models/item.go`: ID int64, Name string,
Description string, Priority int. -/
structure Item where
  ID : Int
  Name : String
  Description : String
  Priority : Int
deriving DecidableEq, Repr

/-- Errors surfaced by the `database/sql` driver layer: the sentinel
`sql.ErrNoRows`, or any other driver failure carrying a message. -/
inductive SqlError where
  | errNoRows
  | driver (msg : String)
deriving DecidableEq, Repr

/-- `err.Error()` for the modelled errors. -/
def SqlError.message : SqlError → String
  | .errNoRows => "sql: no rows in result set"
  | .driver m => m

/-- The `items` table: its rows in insertion order, plus the next
auto-increment key the engine will assign. -/
structure DB where
  rows : List Item
  nextId : Int
deriving DecidableEq, Repr

/-- A freshly initialised store (`InitDB` on an empty file). -/
def emptyDB : DB := ⟨[], 1⟩

/-- Well-formedness the storage engine maintains: every assigned key is
below the next auto-increment key, and keys are pairwise distinct
(`id` is the primary key). -/
def DB.WF (db : DB) : Prop :=
  (∀ r ∈ db.rows, r.ID < db.nextId) ∧ (db.rows.map (·.ID)).Nodup

instance (db : DB) : Decidable db.WF := by
  unfold DB.WF
  infer_instance

namespace database

/-- `database.CreateItem`: INSERT of `name, description, priority` only
(the caller's `item.ID` is not part of the statement); returns
`LastInsertId`, the engine-assigned key. -/
def CreateItem (db : DB) (item : Item) : Except SqlError (Int × DB) :=
  let id := db.nextId
  let row : Item :=
    { ID := id, Name := item.Name, Description := item.Description,
      Priority := item.Priority }
  .ok (id, { rows := db.rows ++ [row], nextId := db.nextId + 1 })

/-- `database.GetItem`: SELECT one row by primary key; `sql.ErrNoRows`
when no row matches. -/
def GetItem (db : DB) (id : Int) : Except SqlError Item :=
  match db.rows.find? (fun r => r.ID == id) with
  | some r => .ok r
  | none => .error .errNoRows

/-- `database.GetItems`: SELECT all rows.  The Go function builds the
slice with `append` starting from a nil slice, so a table with no rows
yields the nil slice — modelled as `none`; a non-empty table yields the
populated slice. -/
def GetItems (db : DB) : Except SqlError (Option (List Item)) :=
  if db.rows.isEmpty then .ok none else .ok (some db.rows)

/-- The per-row effect of the UPDATE statement: a row whose key matches
gets `name, description, priority` replaced; any other row is untouched. -/
def updateRow (item : Item) (id : Int) (r : Item) : Item :=
  if r.ID == id then
    { r with Name := item.Name, Description := item.Description,
             Priority := item.Priority }
  else r

/-- `database.UpdateItem`: UPDATE of `name, description, priority` WHERE
`id` matches; on zero affected rows the Go code returns
`(0, sql.ErrNoRows)`, otherwise the affected count. -/
def UpdateItem (db : DB) (id : Int) (item : Item) :
    Except SqlError (Int × DB) :=
  let affected := (db.rows.filter (fun r => r.ID == id)).length
  let newRows := db.rows.map (updateRow item id)
  if affected == 0 then .error .errNoRows
  else .ok (affected, { db with rows := newRows })

/-- `database.DeleteItem`: DELETE WHERE `id` matches; on zero affected
rows the Go code returns `(0, sql.ErrNoRows)`, otherwise the affected
count. -/
def DeleteItem (db : DB) (id : Int) : Except SqlError (Int × DB) :=
  let affected := (db.rows.filter (fun r => r.ID == id)).length
  let newRows := db.rows.filter (fun r => r.ID != id)
  if affected == 0 then .error .errNoRows
  else .ok (affected, { db with rows := newRows })

end database

/-- `openapi.Item`: the wire-level response shape, with pointer-typed
(hence optional) `Id` and `Description`. -/
structure ApiItem where
  Id : Option Int
  Name : String
  Description : Option String
  Priority : Int
deriving DecidableEq, Repr

/-- `openapi.NewItem` / `openapi.UpdateItem`: the decoded request body for
create and update (`Description` is a `*string`). -/
structure NewItem where
  Name : String
  Description : Option String
  Priority : Int
deriving DecidableEq, Repr

/-- The JSON payload a handler writes. -/
inductive Body where
  | apiItem (it : ApiItem)
  | modelItem (it : Item)
  | items (l : List Item)
  | err (msg : String)
  | empty
deriving DecidableEq, Repr

/-- An HTTP response: status code and encoded payload. -/
structure Response where
  status : Nat
  body : Body
deriving DecidableEq, Repr

namespace openapiHandlers

/-! Handlers of `handlers/openapi_handlers.go` (`ItemAPIServer`). -/

/-- `GetItemById` (GET /items/id): `sql.ErrNoRows` from the repository
becomes 404, other errors 500, success 200 with the row converted to
`openapi.Item` (pointers to the stored values). -/
def GetItemById (db : DB) (id : Int) : Response :=
  match database.GetItem db id with
  | .error e =>
    if e = .errNoRows then ⟨404, .err "Item not found"⟩
    else ⟨500, .err ("Failed to retrieve item: " ++ e.message)⟩
  | .ok it =>
    ⟨200, .apiItem ⟨some it.ID, it.Name, some it.Description, it.Priority⟩⟩

/-- `CreateItem` (POST /items): validate name then priority, default the
missing description to the empty string for storage, insert, and answer
201 echoing the request body's fields (the `Description` pointer is
passed through unchanged). -/
def CreateItem (db : DB) (requestBody : NewItem) : Response × DB :=
  if requestBody.Name = "" then (⟨400, .err "Name is required"⟩, db)
  else if requestBody.Priority ≤ 0 then
    (⟨400, .err "Priority must be a positive integer"⟩, db)
  else
    let dbItem : Item :=
      { ID := 0, Name := requestBody.Name,
        Description := requestBody.Description.getD "",
        Priority := requestBody.Priority }
    match database.CreateItem db dbItem with
    | .error e => (⟨500, .err ("Failed to create item: " ++ e.message)⟩, db)
    | .ok (id, dbAfter) =>
      (⟨201, .apiItem ⟨some id, requestBody.Name, requestBody.Description,
                       requestBody.Priority⟩⟩, dbAfter)

/-- `UpdateItemById` (PUT /items/id) as a function of the two repository
outcomes it observes: what `database.UpdateItem` returned and, when that
succeeded, what the confirmation `database.GetItem` returned.  This is
the handler's decision logic verbatim: validation first, then
`sql.ErrNoRows` → 404, other update errors → 500, affected count 0 →
404, a failed re-fetch → 500, otherwise 200 with the re-fetched row. -/
def UpdateItemByIdCore (requestBody : NewItem)
    (updResult : Except SqlError Int) (getResult : Except SqlError Item) :
    Response :=
  if requestBody.Name = "" then ⟨400, .err "Name is required"⟩
  else if requestBody.Priority ≤ 0 then
    ⟨400, .err "Priority must be a positive integer"⟩
  else
    match updResult with
    | .error e =>
      if e = .errNoRows then ⟨404, .err "Item not found to update"⟩
      else ⟨500, .err ("Failed to update item: " ++ e.message)⟩
    | .ok rowsAffected =>
      if rowsAffected == 0 then
        ⟨404, .err "Item not found, or no changes made"⟩
      else
        match getResult with
        | .error e =>
          ⟨500, .err ("Item updated, but failed to retrieve confirmation: "
                      ++ e.message)⟩
        | .ok it =>
          ⟨200, .apiItem ⟨some it.ID, it.Name, some it.Description,
                          it.Priority⟩⟩

/-- `UpdateItemById` run against the in-memory storage engine: the same
control flow, with the repository calls evaluated on the table state. -/
def UpdateItemById (db : DB) (id : Int) (requestBody : NewItem) :
    Response × DB :=
  if requestBody.Name = "" then (⟨400, .err "Name is required"⟩, db)
  else if requestBody.Priority ≤ 0 then
    (⟨400, .err "Priority must be a positive integer"⟩, db)
  else
    let dbItem : Item :=
      { ID := id, Name := requestBody.Name,
        Description := requestBody.Description.getD "",
        Priority := requestBody.Priority }
    match database.UpdateItem db id dbItem with
    | .error e =>
      if e = .errNoRows then (⟨404, .err "Item not found to update"⟩, db)
      else (⟨500, .err ("Failed to update item: " ++ e.message)⟩, db)
    | .ok (rowsAffected, dbAfter) =>
      if rowsAffected == 0 then
        (⟨404, .err "Item not found, or no changes made"⟩, dbAfter)
      else
        match database.GetItem dbAfter id with
        | .error e =>
          (⟨500, .err ("Item updated, but failed to retrieve confirmation: "
                       ++ e.message)⟩, dbAfter)
        | .ok it =>
          (⟨200, .apiItem ⟨some it.ID, it.Name, some it.Description,
                           it.Priority⟩⟩, dbAfter)

end openapiHandlers

namespace handlers

/-! Handlers of the mux-based handler file (`CreateItemHandler`,
`GetItemsHandler`, `UpdateItemHandler`, `DeleteItemHandler`) and
`handlers/item_handlers.go` (`GetItemsHandler`). -/

/-- `CreateItemHandler`: decodes a full `models.Item` (its `ID` field
included), validates, inserts, then overwrites `item.ID` with the
engine-assigned key and answers 201 with that item. -/
def CreateItemHandler (db : DB) (item : Item) : Response × DB :=
  if item.Name = "" ∨ item.Priority ≤ 0 then
    (⟨400, .err "Name and a positive Priority are required"⟩, db)
  else
    match database.CreateItem db item with
    | .error _ => (⟨500, .err "Failed to create item"⟩, db)
    | .ok (id, dbAfter) => (⟨201, .modelItem { item with ID := id }⟩, dbAfter)

/-- `GetItemsHandler`: 500 on a repository error; a nil slice (no rows)
is replaced by the explicit empty slice before answering 200. -/
def GetItemsHandler (db : DB) : Response :=
  match database.GetItems db with
  | .error _ => ⟨500, .err "Failed to retrieve items"⟩
  | .ok none => ⟨200, .items []⟩
  | .ok (some l) => ⟨200, .items l⟩

/-- `UpdateItemHandler`: validation, then the same outcome mapping as
`UpdateItemById` with this file's messages, answering 200 with the
re-fetched `models.Item`. -/
def UpdateItemHandler (db : DB) (id : Int) (item : Item) : Response × DB :=
  if item.Name = "" ∨ item.Priority ≤ 0 then
    (⟨400, .err "Name and a positive Priority are required"⟩, db)
  else
    let item' := { item with ID := id }
    match database.UpdateItem db id item' with
    | .error e =>
      if e = .errNoRows then (⟨404, .err "Item not found to update"⟩, db)
      else (⟨500, .err "Failed to update item"⟩, db)
    | .ok (rowsAffected, dbAfter) =>
      if rowsAffected == 0 then
        (⟨404, .err "Item not found, no update occurred"⟩, dbAfter)
      else
        match database.GetItem dbAfter id with
        | .error _ =>
          (⟨500, .err "Item updated, but failed to retrieve confirmation"⟩,
           dbAfter)
        | .ok it => (⟨200, .modelItem it⟩, dbAfter)

/-- `DeleteItemHandler`: `sql.ErrNoRows` → 404, other errors → 500,
affected count 0 → 404, otherwise 204 with no content. -/
def DeleteItemHandler (db : DB) (id : Int) : Response × DB :=
  match database.DeleteItem db id with
  | .error e =>
    if e = .errNoRows then (⟨404, .err "Item not found to delete"⟩, db)
    else (⟨500, .err "Failed to delete item"⟩, db)
  | .ok (rowsAffected, dbAfter) =>
    if rowsAffected == 0 then
      (⟨404, .err "Item not found, no deletion occurred"⟩, dbAfter)
    else (⟨204, .empty⟩, dbAfter)

end handlers

/-! ### Facts about the storage model -/

/-- A key matching no row makes the WHERE-filter empty. -/
theorem filter_eq_nil_of_no_match (rows : List Item) (id : Int)
    (h : ∀ r ∈ rows, r.ID ≠ id) :
    rows.filter (fun r => r.ID == id) = [] := by
  apply List.filter_eq_nil_iff.mpr
  intro a ha
  simp [h a ha]

/-- With pairwise-distinct keys, a key that occurs matches exactly one
row. -/
theorem length_filter_eq_one (rows : List Item) (id : Int)
    (hnd : (rows.map (·.ID)).Nodup) (hmem : ∃ r ∈ rows, r.ID = id) :
    (rows.filter (fun r => r.ID == id)).length = 1 := by
  induction rows with
  | nil => simp at hmem
  | cons a t ih =>
    rw [List.map_cons, List.nodup_cons] at hnd
    obtain ⟨hniq, hndt⟩ := hnd
    by_cases ha : a.ID = id
    · have htnil : t.filter (fun r => r.ID == id) = [] := by
        apply filter_eq_nil_of_no_match
        intro r hr hrid
        exact hniq (by rw [ha, ← hrid]; exact List.mem_map_of_mem _ hr)
      simp [List.filter_cons, ha, htnil]
    · obtain ⟨r, hr, hrid⟩ := hmem
      rcases List.mem_cons.mp hr with h | h
      · exact absurd (h ▸ hrid) ha
      · have := ih hndt ⟨r, h, hrid⟩
        simpa [List.filter_cons, ha] using this

/-- After the UPDATE's row transform, looking up the targeted key yields
the fully replaced row (the key itself preserved). -/
theorem find?_map_updateRow_self (rows : List Item) (id : Int) (item : Item)
    (hmem : ∃ r ∈ rows, r.ID = id) :
    (rows.map (database.updateRow item id)).find? (fun r => r.ID == id) =
      some ⟨id, item.Name, item.Description, item.Priority⟩ := by
  induction rows with
  | nil => simp at hmem
  | cons a t ih =>
    by_cases ha : a.ID = id
    · rw [List.map_cons]
      have : database.updateRow item id a =
          ⟨id, item.Name, item.Description, item.Priority⟩ := by
        simp [database.updateRow, ha]
      rw [this]
      exact List.find?_cons_of_pos _ (by simp)
    · obtain ⟨r, hr, hrid⟩ := hmem
      rcases List.mem_cons.mp hr with h | h
      · exact absurd (h ▸ hrid) ha
      · rw [List.map_cons]
        have hup : database.updateRow item id a = a := by
          simp [database.updateRow, ha]
        rw [hup, List.find?_cons_of_neg _ (by simp [ha])]
        exact ih ⟨r, h, hrid⟩

/-- The UPDATE's row transform never changes a row's key. -/
theorem updateRow_ID (item : Item) (id : Int) (r : Item) :
    (database.updateRow item id r).ID = r.ID := by
  unfold database.updateRow
  split <;> rfl

/-- The UPDATE's row transform leaves every other key's lookup
unchanged. -/
theorem find?_map_updateRow_other (rows : List Item) (id j : Int)
    (item : Item) (hne : j ≠ id) :
    (rows.map (database.updateRow item id)).find? (fun r => r.ID == j) =
      rows.find? (fun r => r.ID == j) := by
  induction rows with
  | nil => rfl
  | cons a t ih =>
    rw [List.map_cons]
    by_cases haj : a.ID = j
    · have hup : database.updateRow item id a = a := by
        unfold database.updateRow
        rw [if_neg (by simp [haj, hne])]
      rw [hup, List.find?_cons_of_pos _ (by simp [haj]),
          List.find?_cons_of_pos _ (by simp [haj])]
    · rw [List.find?_cons_of_neg _ (by simp [updateRow_ID, haj]),
          List.find?_cons_of_neg _ (by simp [haj])]
      exact ih

/-- Evaluating the OpenAPI create handler on a valid body: 201 with the
engine-assigned id, the description pointer echoed, and the row appended
with the description defaulted for storage. -/
theorem createItem_ok (db : DB) (body : NewItem)
    (hname : body.Name ≠ "") (hprio : 0 < body.Priority) :
    openapiHandlers.CreateItem db body =
      (⟨201, .apiItem ⟨some db.nextId, body.Name, body.Description,
                       body.Priority⟩⟩,
       ⟨db.rows ++ [(⟨db.nextId, body.Name, body.Description.getD "",
                     body.Priority⟩ : Item)], db.nextId + 1⟩) := by
  have hp : ¬ body.Priority ≤ 0 := by omega
  unfold openapiHandlers.CreateItem database.CreateItem
  simp [hname, hp]

/-- Looking up the next key right after appending a row carrying it. -/
theorem getItem_after_append (db : DB) (row : Item)
    (hbound : ∀ r ∈ db.rows, r.ID < db.nextId) (hrow : row.ID = db.nextId) :
    database.GetItem ⟨db.rows ++ [row], db.nextId + 1⟩ db.nextId =
      .ok row := by
  have hnone : db.rows.find? (fun r => r.ID == db.nextId) = none := by
    apply List.find?_eq_none.mpr
    intro r hr
    have := hbound r hr
    simp only [beq_iff_eq]
    omega
  unfold database.GetItem
  rw [show (⟨db.rows ++ [row], db.nextId + 1⟩ : DB).rows
        = db.rows ++ [row] from rfl]
  rw [List.find?_append, hnone]
  simp [List.find?, hrow]

/-! ### The claims -/

/-- C1 (counterexample): at id 1 on the empty store the repository
Update and Delete do NOT return the count 0 as an ordinary result value:
each signals failure, returning the sentinel error `sql.ErrNoRows` (with
count 0), so the claim that a 0-count result is propagated without
signalling failure is false on the code. -/
theorem c1_counterexample_zero_count_signalled_as_error :
    database.UpdateItem emptyDB 1 ⟨0, "X", "", 1⟩ =
      .error .errNoRows ∧
    database.DeleteItem emptyDB 1 = .error .errNoRows ∧
    (∀ res, database.UpdateItem emptyDB 1 ⟨0, "X", "", 1⟩ ≠ .ok res) ∧
    (∀ res, database.DeleteItem emptyDB 1 ≠ .ok res) := by
  refine ⟨rfl, rfl, ?_, ?_⟩ <;> intro res h <;> cases h

/-- C1 (amended): for every id matching no row, the repository Update and
Delete return the pair (count 0, `sql.ErrNoRows`): the zero-affected-row
case is signalled by the repository itself as the sentinel error
`sql.ErrNoRows`, and the Service layer maps that sentinel (not a bare
zero count) to NotFound, as `DeleteItemHandler` shows. -/
theorem c1_amended_missing_row_yields_errNoRows (db : DB) (id : Int)
    (item : Item) (h : ∀ r ∈ db.rows, r.ID ≠ id) :
    database.UpdateItem db id item = .error .errNoRows ∧
    database.DeleteItem db id = .error .errNoRows ∧
    handlers.DeleteItemHandler db id =
      (⟨404, .err "Item not found to delete"⟩, db) := by
  have hf : db.rows.filter (fun r => r.ID == id) = [] :=
    filter_eq_nil_of_no_match db.rows id h
  refine ⟨?_, ?_, ?_⟩
  · simp [database.UpdateItem, hf]
  · simp [database.DeleteItem, hf]
  · simp [handlers.DeleteItemHandler, database.DeleteItem, hf]

/-- Witness for C1 (amended) at the empty store and id 1. -/
theorem c1_amended_witness :
    database.UpdateItem emptyDB 1 ⟨0, "W", "", 1⟩ = .error .errNoRows ∧
    database.DeleteItem emptyDB 1 = .error .errNoRows ∧
    handlers.DeleteItemHandler emptyDB 1 =
      (⟨404, .err "Item not found to delete"⟩, emptyDB) :=
  c1_amended_missing_row_yields_errNoRows emptyDB 1 ⟨0, "W", "", 1⟩
    (by intro r hr; simp [emptyDB] at hr)

/-- C2: an Update request whose payload fails validation (empty name or
non-positive priority) is answered 400 ValidationError — never 404 —
for every store state and id, and the store is untouched: validation
precedes any storage access, in both the OpenAPI handler and the
mux-based handler. -/
theorem c2_validation_precedes_existence (db : DB) (id : Int)
    (body : NewItem) (hbody : body.Name = "" ∨ body.Priority ≤ 0) :
    ((openapiHandlers.UpdateItemById db id body).1.status = 400 ∧
     (openapiHandlers.UpdateItemById db id body).1.status ≠ 404 ∧
     (openapiHandlers.UpdateItemById db id body).2 = db) ∧
    (∀ item : Item, item.Name = body.Name → item.Priority = body.Priority →
      (handlers.UpdateItemHandler db id item).1.status = 400 ∧
      (handlers.UpdateItemHandler db id item).1.status ≠ 404 ∧
      (handlers.UpdateItemHandler db id item).2 = db) := by
  constructor
  · unfold openapiHandlers.UpdateItemById
    rcases hbody with h | h
    · simp [h]
    · by_cases hn : body.Name = "" <;> simp [hn, h]
  · intro item hn hp
    unfold handlers.UpdateItemHandler
    have : item.Name = "" ∨ item.Priority ≤ 0 := by
      rw [hn, hp]; exact hbody
    simp [this]

/-- Witness for C2: the invalid payload name "" / priority 1 against the
missing id 99999 on the empty store yields 400, not 404. -/
theorem c2_witness :
    (openapiHandlers.UpdateItemById emptyDB 99999 ⟨"", none, 1⟩).1.status
        = 400 ∧
    (openapiHandlers.UpdateItemById emptyDB 99999 ⟨"", none, 1⟩).1.status
        ≠ 404 ∧
    (openapiHandlers.UpdateItemById emptyDB 99999 ⟨"", none, 1⟩).2
        = emptyDB ∧
    (handlers.UpdateItemHandler emptyDB 99999 ⟨99999, "", "", 1⟩).1.status
        = 400 ∧
    (handlers.UpdateItemHandler emptyDB 99999 ⟨99999, "", "", 1⟩).1.status
        ≠ 404 := by
  obtain ⟨⟨h1, h2, h3⟩, h4⟩ :=
    c2_validation_precedes_existence emptyDB 99999 ⟨"", none, 1⟩ (Or.inl rfl)
  obtain ⟨h5, h6, _⟩ := h4 ⟨99999, "", "", 1⟩ rfl rfl
  exact ⟨h1, h2, h3, h5, h6⟩

/-- C3: on a valid payload, the Update handler's success path always
re-fetches and answers 200 with the re-fetched row; when the write
succeeded (affected count 1) but the re-fetch failed, it answers 500 —
the same InternalError status a driver-failed write produces, so the
caller's status code cannot distinguish the durable write from a failed
one. -/
theorem c3_refetch_failure_reports_internal_error (body : NewItem)
    (e : SqlError) (m : String) (it : Item) (fetch : Except SqlError Item)
    (hname : body.Name ≠ "") (hprio : 0 < body.Priority) :
    (openapiHandlers.UpdateItemByIdCore body (.ok 1) (.error e)).status
        = 500 ∧
    openapiHandlers.UpdateItemByIdCore body (.ok 1) (.ok it) =
      ⟨200, .apiItem ⟨some it.ID, it.Name, some it.Description,
                      it.Priority⟩⟩ ∧
    (openapiHandlers.UpdateItemByIdCore body (.error (.driver m))
        fetch).status = 500 ∧
    (openapiHandlers.UpdateItemByIdCore body (.ok 1) (.error e)).status =
      (openapiHandlers.UpdateItemByIdCore body (.error (.driver m))
        fetch).status := by
  have hp : ¬ body.Priority ≤ 0 := by omega
  unfold openapiHandlers.UpdateItemByIdCore
  simp [hname, hp]

/-- Witness for C3 at the payload name "B" / priority 2, a driver error
on the confirmation read, and a driver error on the write. -/
theorem c3_witness :
    (openapiHandlers.UpdateItemByIdCore ⟨"B", none, 2⟩ (.ok 1)
        (.error (.driver "disk"))).status = 500 ∧
    openapiHandlers.UpdateItemByIdCore ⟨"B", none, 2⟩ (.ok 1)
        (.ok ⟨1, "B", "", 2⟩) =
      ⟨200, .apiItem ⟨some 1, "B", some "", 2⟩⟩ ∧
    (openapiHandlers.UpdateItemByIdCore ⟨"B", none, 2⟩
        (.error (.driver "io")) (.ok ⟨1, "B", "", 2⟩)).status = 500 ∧
    (openapiHandlers.UpdateItemByIdCore ⟨"B", none, 2⟩ (.ok 1)
        (.error (.driver "disk"))).status =
      (openapiHandlers.UpdateItemByIdCore ⟨"B", none, 2⟩
        (.error (.driver "io")) (.ok ⟨1, "B", "", 2⟩)).status :=
  c3_refetch_failure_reports_internal_error ⟨"B", none, 2⟩ (.driver "disk")
    "io" ⟨1, "B", "", 2⟩ (.ok ⟨1, "B", "", 2⟩) (by decide) (by decide)

/-- C4: creating a valid item (non-empty name, positive priority) through
the OpenAPI handler answers 201 with the engine-assigned id, and a
GetByID on that id immediately afterwards returns a row whose name and
priority equal the input's and whose description equals the input's,
defaulted to the empty string when the input omitted it. -/
theorem c4_create_then_get_roundtrip (db : DB) (body : NewItem)
    (hwf : db.WF) (hname : body.Name ≠ "") (hprio : 0 < body.Priority) :
    ∃ dbAfter,
      openapiHandlers.CreateItem db body =
        (⟨201, .apiItem ⟨some db.nextId, body.Name, body.Description,
                         body.Priority⟩⟩, dbAfter) ∧
      database.GetItem dbAfter db.nextId =
        .ok ⟨db.nextId, body.Name, body.Description.getD "",
             body.Priority⟩ := by
  refine ⟨⟨db.rows ++ [(⟨db.nextId, body.Name, body.Description.getD "",
                       body.Priority⟩ : Item)], db.nextId + 1⟩,
          createItem_ok db body hname hprio, ?_⟩
  exact getItem_after_append db
    ⟨db.nextId, body.Name, body.Description.getD "", body.Priority⟩
    hwf.1 rfl

/-- Witness for C4: creating name "A" / description "d" / priority 1 on
the empty store and reading id 1 back. -/
theorem c4_witness :
    ∃ dbAfter,
      openapiHandlers.CreateItem emptyDB ⟨"A", some "d", 1⟩ =
        (⟨201, .apiItem ⟨some emptyDB.nextId, "A", some "d", 1⟩⟩,
         dbAfter) ∧
      database.GetItem dbAfter emptyDB.nextId =
        .ok ⟨emptyDB.nextId, "A", "d", 1⟩ :=
  c4_create_then_get_roundtrip emptyDB ⟨"A", some "d", 1⟩ (by decide)
    (by decide) (by decide)

/-- C5: on an existing row, Update replaces name, description and
priority wholesale (affected count 1): the subsequent GetByID returns
exactly the id with the new field values, and every other id's lookup is
unchanged. -/
theorem c5_update_wholesale_frame (db : DB) (id : Int) (item : Item)
    (hwf : db.WF) (hmem : ∃ r ∈ db.rows, r.ID = id) :
    ∃ dbAfter,
      database.UpdateItem db id item = .ok (1, dbAfter) ∧
      database.GetItem dbAfter id =
        .ok ⟨id, item.Name, item.Description, item.Priority⟩ ∧
      ∀ j, j ≠ id → database.GetItem dbAfter j = database.GetItem db j := by
  have hlen : (db.rows.filter (fun r => r.ID == id)).length = 1 :=
    length_filter_eq_one db.rows id hwf.2 hmem
  refine ⟨{ db with rows := db.rows.map (database.updateRow item id) },
          ?_, ?_, ?_⟩
  · unfold database.UpdateItem
    simp [hlen]
  · unfold database.GetItem
    rw [show ({ db with rows := db.rows.map (database.updateRow item id) }
          : DB).rows = db.rows.map (database.updateRow item id) from rfl]
    rw [find?_map_updateRow_self db.rows id item hmem]
  · intro j hj
    unfold database.GetItem
    rw [show ({ db with rows := db.rows.map (database.updateRow item id) }
          : DB).rows = db.rows.map (database.updateRow item id) from rfl]
    rw [find?_map_updateRow_other db.rows id j item hj]

/-- Witness for C5: updating the single row id 1 of a one-row store to
name "B" / description "d" / priority 2. -/
theorem c5_witness :
    ∃ dbAfter,
      database.UpdateItem ⟨[⟨1, "A", "", 1⟩], 2⟩ 1 ⟨0, "B", "d", 2⟩ =
        .ok (1, dbAfter) ∧
      database.GetItem dbAfter 1 = .ok ⟨1, "B", "d", 2⟩ ∧
      ∀ j, j ≠ 1 → database.GetItem dbAfter j =
        database.GetItem ⟨[⟨1, "A", "", 1⟩], 2⟩ j :=
  c5_update_wholesale_frame ⟨[⟨1, "A", "", 1⟩], 2⟩ 1 ⟨0, "B", "d", 2⟩
    (by decide) ⟨⟨1, "A", "", 1⟩, by decide, by decide⟩

/-- C6: on a store holding no rows the repository List does not report an
error (a nil slice, Go's empty collection, is an ordinary result), and
the List handler answers 200 with the explicitly empty — present,
non-null — collection. -/
theorem c6_list_empty_store (db : DB) (h : db.rows = []) :
    database.GetItems db = .ok none ∧
    handlers.GetItemsHandler db = ⟨200, .items []⟩ := by
  constructor
  · simp [database.GetItems, h]
  · simp [handlers.GetItemsHandler, database.GetItems, h]

/-- Witness for C6 at the freshly initialised store. -/
theorem c6_witness :
    database.GetItems emptyDB = .ok none ∧
    handlers.GetItemsHandler emptyDB = ⟨200, .items []⟩ :=
  c6_list_empty_store emptyDB rfl

/-- C7: deleting an existing id succeeds — affected count 1 at the
repository, 204 with no content at the handler — and an immediate second
delete of the same id is answered 404 NotFound. -/
theorem c7_delete_twice (db : DB) (id : Int)
    (hwf : db.WF) (hmem : ∃ r ∈ db.rows, r.ID = id) :
    ∃ dbAfter,
      database.DeleteItem db id = .ok (1, dbAfter) ∧
      handlers.DeleteItemHandler db id = (⟨204, .empty⟩, dbAfter) ∧
      handlers.DeleteItemHandler dbAfter id =
        (⟨404, .err "Item not found to delete"⟩, dbAfter) := by
  have hlen : (db.rows.filter (fun r => r.ID == id)).length = 1 :=
    length_filter_eq_one db.rows id hwf.2 hmem
  refine ⟨{ db with rows := db.rows.filter (fun r => r.ID != id) },
          ?_, ?_, ?_⟩
  · unfold database.DeleteItem
    simp [hlen]
  · unfold handlers.DeleteItemHandler database.DeleteItem
    simp [hlen]
  · have hnil : (db.rows.filter (fun r => r.ID != id)).filter
        (fun r => r.ID == id) = [] := by
      apply List.filter_eq_nil_iff.mpr
      intro a ha
      have := (List.mem_filter.mp ha).2
      simp only [bne_iff_ne, ne_eq] at this
      simp [this]
    unfold handlers.DeleteItemHandler database.DeleteItem
    simp [hnil]

/-- Witness for C7: the one-row store with id 1. -/
theorem c7_witness :
    ∃ dbAfter,
      database.DeleteItem ⟨[⟨1, "D", "", 1⟩], 2⟩ 1 = .ok (1, dbAfter) ∧
      handlers.DeleteItemHandler ⟨[⟨1, "D", "", 1⟩], 2⟩ 1 =
        (⟨204, .empty⟩, dbAfter) ∧
      handlers.DeleteItemHandler dbAfter 1 =
        (⟨404, .err "Item not found to delete"⟩, dbAfter) :=
  c7_delete_twice ⟨[⟨1, "D", "", 1⟩], 2⟩ 1 (by decide)
    ⟨⟨1, "D", "", 1⟩, by decide, by decide⟩

/-- C8: a create whose name is non-empty but whose priority is
non-positive is rejected 400 with the message naming the priority field,
and the store is returned unchanged, so a subsequent List sees exactly
what it saw before. -/
theorem c8_create_nonpositive_priority (db : DB) (body : NewItem)
    (hname : body.Name ≠ "") (hprio : body.Priority ≤ 0) :
    openapiHandlers.CreateItem db body =
      (⟨400, .err "Priority must be a positive integer"⟩, db) ∧
    "Priority".data.isPrefixOf
      "Priority must be a positive integer".data = true ∧
    handlers.GetItemsHandler (openapiHandlers.CreateItem db body).2 =
      handlers.GetItemsHandler db := by
  have h1 : openapiHandlers.CreateItem db body =
      (⟨400, .err "Priority must be a positive integer"⟩, db) := by
    unfold openapiHandlers.CreateItem
    simp [hname, hprio]
  refine ⟨h1, by decide, by rw [h1]⟩

/-- Witness for C8: the create input name "X" / priority 0 on the empty
store. -/
theorem c8_witness :
    openapiHandlers.CreateItem emptyDB ⟨"X", none, 0⟩ =
      (⟨400, .err "Priority must be a positive integer"⟩, emptyDB) ∧
    "Priority".data.isPrefixOf
      "Priority must be a positive integer".data = true ∧
    handlers.GetItemsHandler
        (openapiHandlers.CreateItem emptyDB ⟨"X", none, 0⟩).2 =
      handlers.GetItemsHandler emptyDB :=
  c8_create_nonpositive_priority emptyDB ⟨"X", none, 0⟩ (by decide)
    (by decide)

/-- C9: a valid create that omits the description answers 201 whose body
carries the caller's absent description pointer unchanged (no
description), even though the persisted row holds the empty string and
the subsequent GetItemById answers 200 with a present, empty
description. -/
theorem c9_create_echoes_nil_description (db : DB) (body : NewItem)
    (hwf : db.WF) (hname : body.Name ≠ "") (hprio : 0 < body.Priority)
    (hdesc : body.Description = none) :
    ∃ dbAfter,
      openapiHandlers.CreateItem db body =
        (⟨201, .apiItem ⟨some db.nextId, body.Name, none,
                         body.Priority⟩⟩, dbAfter) ∧
      database.GetItem dbAfter db.nextId =
        .ok ⟨db.nextId, body.Name, "", body.Priority⟩ ∧
      openapiHandlers.GetItemById dbAfter db.nextId =
        ⟨200, .apiItem ⟨some db.nextId, body.Name, some "",
                        body.Priority⟩⟩ := by
  refine ⟨⟨db.rows ++ [(⟨db.nextId, body.Name, "", body.Priority⟩ : Item)],
          db.nextId + 1⟩, ?_, ?_, ?_⟩
  · have h := createItem_ok db body hname hprio
    rw [hdesc] at h
    simpa using h
  · exact getItem_after_append db
      ⟨db.nextId, body.Name, "", body.Priority⟩ hwf.1 rfl
  · unfold openapiHandlers.GetItemById
    rw [getItem_after_append db
      ⟨db.nextId, body.Name, "", body.Priority⟩ hwf.1 rfl]

/-- Witness for C9: creating name "A" / priority 1 with the description
omitted on the empty store. -/
theorem c9_witness :
    ∃ dbAfter,
      openapiHandlers.CreateItem emptyDB ⟨"A", none, 1⟩ =
        (⟨201, .apiItem ⟨some emptyDB.nextId, "A", none, 1⟩⟩, dbAfter) ∧
      database.GetItem dbAfter emptyDB.nextId =
        .ok ⟨emptyDB.nextId, "A", "", 1⟩ ∧
      openapiHandlers.GetItemById dbAfter emptyDB.nextId =
        ⟨200, .apiItem ⟨some emptyDB.nextId, "A", some "", 1⟩⟩ :=
  c9_create_echoes_nil_description emptyDB ⟨"A", none, 1⟩ (by decide)
    (by decide) (by decide) rfl

/-- C10: the mux-based create handler ignores any id the caller put in
the body: the insert writes only name, description and priority, the
stored row and the 201 response both carry the engine-assigned id, and
the handler's outcome is identical for any body id value. -/
theorem c10_body_id_ignored (db : DB) (item : Item)
    (hname : item.Name ≠ "") (hprio : 0 < item.Priority) :
    handlers.CreateItemHandler db item =
      (⟨201, .modelItem ⟨db.nextId, item.Name, item.Description,
                         item.Priority⟩⟩,
       ⟨db.rows ++ [(⟨db.nextId, item.Name, item.Description,
                     item.Priority⟩ : Item)], db.nextId + 1⟩) ∧
    ∀ x : Int, handlers.CreateItemHandler db { item with ID := x } =
      handlers.CreateItemHandler db item := by
  have hval : ¬ (item.Name = "" ∨ item.Priority ≤ 0) := by
    push_neg
    exact ⟨hname, by omega⟩
  constructor
  · unfold handlers.CreateItemHandler database.CreateItem
    simp [hval]
  · intro x
    obtain ⟨a, b, c, d⟩ := item
    rfl

/-- Witness for C10: the caller supplies body id 12345 (and again 54321)
on the empty store; the stored and returned id is the engine-assigned
1 in both cases. -/
theorem c10_witness :
    handlers.CreateItemHandler emptyDB ⟨12345, "A", "d", 1⟩ =
      (⟨201, .modelItem ⟨1, "A", "d", 1⟩⟩, ⟨[⟨1, "A", "d", 1⟩], 2⟩) ∧
    handlers.CreateItemHandler emptyDB ⟨54321, "A", "d", 1⟩ =
      handlers.CreateItemHandler emptyDB ⟨12345, "A", "d", 1⟩ := by
  obtain ⟨h1, h2⟩ := c10_body_id_ignored emptyDB ⟨12345, "A", "d", 1⟩
    (by decide) (by decide)
  refine ⟨by simpa [emptyDB] using h1, ?_⟩
  have h3 := h2 54321
  simpa using h3

end RestServer

